import Mathlib

/-!
# Verification of the AlzDiscovery LLM-orchestration core

Shallow embedding of the core of `src/research/grapg.py` and
`src/research/pipeline.py`: the caching/retrying LLM query client
(`LLMClient`), the compound/score text extractors, the combination-therapy
stage and the pipeline driver (`run_pipeline`).

Strings from the Python side are modelled as `String` / `List Char`.
Python regular expressions are modelled by a small backtracking matcher
(`RItem`, `matchFrom`) whose greedy/backtracking preference order follows
Python's `re` engine; the concrete patterns of the source are transcribed
item by item.  Machine-level constructs (`hashlib.md5`) are implemented
directly over `Nat` arithmetic.
-/

namespace AlzDiscovery

/-! ## Python string primitives -/

/-- ASCII whitespace as matched by Python's `\s` and `str.strip()`
(the inputs handled by the source are ASCII text). -/
def pyIsSpace (c : Char) : Bool :=
  c == ' ' || c == '\t' || c == '\n' || c == '\r' || c == '\x0b' || c == '\x0c'

/-- `str.strip()` on a list of characters. -/
def pyStrip (cs : List Char) : List Char :=
  ((cs.dropWhile pyIsSpace).reverse.dropWhile pyIsSpace).reverse

/-- `[A-Z]` -/
def isUpperAZ (c : Char) : Bool := 'A' ≤ c && c ≤ 'Z'

/-- `[a-z]` -/
def isLowerAZ (c : Char) : Bool := 'a' ≤ c && c ≤ 'z'

/-- `[0-9]` -/
def isDigit09 (c : Char) : Bool := '0' ≤ c && c ≤ '9'

/-- `[a-zA-Z]` -/
def isAlphaAZ (c : Char) : Bool := isUpperAZ c || isLowerAZ c

/-- The class `[a-zA-Z\s\-]` used by the compound header patterns. -/
def isNameChar (c : Char) : Bool := isAlphaAZ c || pyIsSpace c || c == '-'

/-- The class `[A-Za-z0-9\s\-]` used by the ranking pattern. -/
def isRankNameChar (c : Char) : Bool :=
  isAlphaAZ c || isDigit09 c || pyIsSpace c || c == '-'

/-! ## A small backtracking regex matcher

Patterns are sequences of items: single-character classes (`once`),
greedy `+` (`plus`), greedy `*` (`star`) and ordered alternation over item
sequences (`alt`).  `matchFrom` matches a pattern against a prefix of the
input and returns, per item, the characters that item consumed; it
implements the leftmost/greedy backtracking preference of Python's `re`
(earlier items backtrack last; `alt` prefers its first branch). -/

inductive RItem where
  | once (cls : Char → Bool)
  | plus (cls : Char → Bool)
  | star (cls : Char → Bool)
  | alt (a b : List RItem)

mutual

/-- Size measure for termination of the matcher. -/
def RItem.size : RItem → Nat
  | .once _ => 1
  | .plus _ => 1
  | .star _ => 1
  | .alt a b => 1 + patSize a + patSize b

/-- Total size of a pattern. -/
def patSize : List RItem → Nat
  | [] => 0
  | i :: is => i.size + patSize is

end

theorem patSize_append (a b : List RItem) :
    patSize (a ++ b) = patSize a + patSize b := by
  induction a with
  | nil => simp [patSize]
  | cons i is ih => simp [patSize, ih]; omega

theorem patSize_cons (i : RItem) (is : List RItem) :
    patSize (i :: is) = i.size + patSize is := rfl

theorem RItem.size_pos (i : RItem) : 1 ≤ i.size := by
  cases i
  all_goals simp [RItem.size]
  omega

theorem patSize_cons_pos (i : RItem) (is : List RItem) :
    0 < patSize (i :: is) := by
  have := i.size_pos; rw [patSize_cons]; omega

/-- Length of the maximal prefix run of characters in class `cls`. -/
def runLen (cls : Char → Bool) : List Char → Nat
  | [] => 0
  | c :: cs => if cls c then runLen cls cs + 1 else 0

/-- Greedy repetition: given the continuation `f` for the rest of the
pattern, try consuming `k` characters first, then fewer; `allowZero`
distinguishes `*` from `+`. -/
def tryLens (f : List Char → Option (List (List Char))) (cs : List Char) :
    Nat → Bool → Option (List (List Char))
  | 0, allowZero =>
    if allowZero then (f cs).map (fun ch => [] :: ch) else none
  | k + 1, allowZero =>
    match f (cs.drop (k + 1)) with
    | some ch => some (cs.take (k + 1) :: ch)
    | none => tryLens f cs k allowZero

/-- Match a pattern against a prefix of `cs`; on success return the list
of characters consumed by each item (an `alt` item reports the characters
of its chosen branch, joined).  Structural recursion on a fuel argument;
one unit of fuel is spent per leading item, and each step strictly
decreases `patSize`, so fuel `patSize items` (as supplied by `matchFrom`)
never runs out. -/
def matchFromF : Nat → List RItem → List Char → Option (List (List Char))
  | _, [], _ => some []
  | 0, _ :: _, _ => none
  | fuel + 1, .once cls :: items, cs =>
    match cs with
    | [] => none
    | c :: cs2 =>
      if cls c then (matchFromF fuel items cs2).map (fun ch => [c] :: ch)
      else none
  | fuel + 1, .plus cls :: items, cs =>
    tryLens (fun rest => matchFromF fuel items rest) cs (runLen cls cs) false
  | fuel + 1, .star cls :: items, cs =>
    tryLens (fun rest => matchFromF fuel items rest) cs (runLen cls cs) true
  | fuel + 1, .alt a b :: items, cs =>
    match matchFromF fuel (a ++ items) cs with
    | some ch => some ((ch.take a.length).flatten :: ch.drop a.length)
    | none =>
      match matchFromF fuel (b ++ items) cs with
      | some ch => some ((ch.take b.length).flatten :: ch.drop b.length)
      | none => none

/-- Anchored match of a pattern (Python `re.search` on an `^`-anchored
pattern, or the attempt of `finditer` at one start position). -/
def matchFrom (items : List RItem) (cs : List Char) :
    Option (List (List Char)) :=
  matchFromF (patSize items) items cs

/-- All non-overlapping matches of a pattern in the input, scanning start
positions left to right and resuming after each match, as Python's
`re.finditer`; an empty match advances the scan by one character.
Structural recursion on fuel; one unit is spent per scan position and each
step strictly shortens the input, so fuel `cs.length` (as supplied by
`finditerAll`) never runs out. -/
def finditerGo (pat : List RItem) : Nat → List Char → List (List (List Char))
  | _, [] =>
    match matchFrom pat [] with
    | some ch => [ch]
    | none => []
  | 0, _ :: _ => []
  | fuel + 1, c :: cs =>
    match matchFrom pat (c :: cs) with
    | some ch =>
      let t := ch.flatten.length
      if t = 0 then ch :: finditerGo pat fuel cs
      -- resume at the match end: `(c :: cs).drop t`, written on the tail
      -- (`t ≠ 0` in this branch)
      else ch :: finditerGo pat fuel (cs.drop (t - 1))
    | none => finditerGo pat fuel cs

/-- `re.finditer pat cs`. -/
def finditerAll (pat : List RItem) (cs : List Char) :
    List (List (List Char)) :=
  finditerGo pat cs.length cs

/-- A single-character literal, `once (· == c)`. -/
def lit (c : Char) : RItem := .once (· == c)

/-- A literal word, one `lit` item per character. -/
def litStr (s : String) : List RItem := s.data.map lit

/-! ## The compound-extraction parser

`AlzheimerDrugDiscovery.extract_compounds` (grapg.py lines 1328-1391;
the identical function also appears in pipeline.py lines 335-398): a
line-oriented scan in which four header regexes are tried in order on each
stripped non-blank line.  Each pattern is transcribed item by item; for
each we record which items form capture group 1. -/

/-- `r'^[0-9]+\.[\s]*([A-Z][a-z]+[a-zA-Z\s\-]+):'` — items 3-5 are group 1. -/
def compoundPat1 : List RItem :=
  [.plus isDigit09, lit '.', .star pyIsSpace,
   .once isUpperAZ, .plus isLowerAZ, .plus isNameChar, lit ':']

/-- `r'^[0-9]+\.[\s]*([A-Z][a-z]+[a-zA-Z\s\-]+) -'` — items 3-5 are group 1. -/
def compoundPat2 : List RItem :=
  [.plus isDigit09, lit '.', .star pyIsSpace,
   .once isUpperAZ, .plus isLowerAZ, .plus isNameChar, lit ' ', lit '-']

/-- `r'^[*\-•][\s]*([A-Z][a-z]+[a-zA-Z\s\-]+):'` — items 2-4 are group 1. -/
def compoundPat3 : List RItem :=
  [.once (fun c => c == '*' || c == '-' || c == '•'), .star pyIsSpace,
   .once isUpperAZ, .plus isLowerAZ, .plus isNameChar, lit ':']

/-- `r'^([A-Z][a-z]+[a-zA-Z\s\-]+)\s*\((?:drug|compound|inhibitor|therapy)\):'`
— items 0-2 are group 1. -/
def compoundPat4 : List RItem :=
  [.once isUpperAZ, .plus isLowerAZ, .plus isNameChar, .star pyIsSpace,
   lit '(',
   .alt (litStr "drug")
     [.alt (litStr "compound") [.alt (litStr "inhibitor") (litStr "therapy")]],
   lit ')', lit ':']

/-- The four patterns with the span (start index, item count) of capture
group 1, in the order the source tries them. -/
def compoundPatterns : List (List RItem × Nat × Nat) :=
  [(compoundPat1, 3, 3), (compoundPat2, 3, 3),
   (compoundPat3, 2, 3), (compoundPat4, 0, 3)]

/-- Apply one pattern to (the start of) a line; on a match return
`(group 1, match end position)`. -/
def applyPat (p : List RItem × Nat × Nat) (line : List Char) :
    Option (List Char × Nat) :=
  match matchFrom p.1 line with
  | some ch => some (((ch.drop p.2.1).take p.2.2).flatten, ch.flatten.length)
  | none => none

/-- First pattern that matches the line, as in the source's inner
`for pattern in compound_patterns` loop (first match wins). -/
def firstPatternMatch (line : List Char) : Option (List Char × Nat) :=
  match applyPat (compoundPat1, 3, 3) line with
  | some r => some r
  | none =>
    match applyPat (compoundPat2, 3, 3) line with
    | some r => some r
    | none =>
      match applyPat (compoundPat3, 2, 3) line with
      | some r => some r
      | none => applyPat (compoundPat4, 0, 3) line

/-- A `{name, mechanism}` record as produced by `extract_compounds`. -/
structure Compound where
  name : List Char
  mechanism : List Char
deriving DecidableEq, Repr

/-- `' '.join(current_mechanism)` -/
def joinSpace (parts : List (List Char)) : List Char :=
  match parts with
  | [] => []
  | p :: rest => rest.foldl (fun acc q => acc ++ [' '] ++ q) p

/-- The line loop of `extract_compounds`: state is the current compound
name (if any) and the accumulated mechanism lines. -/
def extractLoop : List (List Char) → Option (List Char) → List (List Char) →
    List Compound
  | [], none, _ => []
  | [], some name, mech => [⟨name, joinSpace mech⟩]
  | rawLine :: rest, cur, mech =>
    let line := pyStrip rawLine
    if line = [] then extractLoop rest cur mech
    else
      match firstPatternMatch line with
      | some (g, e) =>
        let newName := pyStrip g
        let remainder := pyStrip (line.drop e)
        let newMech :=
          if remainder ≠ [] ∧ remainder ≠ [':'] ∧ remainder ≠ ['-']
          then [remainder] else []
        match cur with
        | some name =>
          ⟨name, joinSpace mech⟩ :: extractLoop rest (some newName) newMech
        | none => extractLoop rest (some newName) newMech
      | none =>
        match cur with
        | some _ => extractLoop rest cur (mech ++ [line])
        | none => extractLoop rest cur mech

/-- `AlzheimerDrugDiscovery.extract_compounds`. -/
def extract_compounds (llm_response : String) : List Compound :=
  extractLoop (llm_response.data.splitOn '\n') none []

/-! ## The score-extraction parser

`AlzheimerDrugDiscovery._extract_scores` (grapg.py lines 1569-1593):
`re.finditer` with
`r"Rank\s+\d+:\s+([A-Za-z0-9\s\-]+)\s+-\s+Score:\s+(\d+(?:\.\d+)?)/10"`,
filling a dict `scores[name] = float(score)`. -/

/-- The ranking pattern.  Item 8 is capture group 1 (the compound name);
items 19-20 are capture group 2 (the score digits). -/
def rankPattern : List RItem :=
  litStr "Rank" ++
  [.plus pyIsSpace, .plus isDigit09, lit ':', .plus pyIsSpace,
   .plus isRankNameChar, .plus pyIsSpace, lit '-', .plus pyIsSpace] ++
  litStr "Score:" ++
  [.plus pyIsSpace, .plus isDigit09,
   .alt [lit '.', .plus isDigit09] []] ++
  litStr "/10"

/-- Python `dict` as an insertion-ordered association list;
`pyDictSet` is `d[k] = v` (update in place, else append). -/
def pyDictSet [DecidableEq κ] (m : List (κ × α)) (k : κ) (v : α) :
    List (κ × α) :=
  if m.any (fun p => p.1 = k) then
    m.map (fun p => if p.1 = k then (k, v) else p)
  else m ++ [(k, v)]

/-- Python `dict` lookup (`d.get(k)`). -/
def pyDictGet [DecidableEq κ] (m : List (κ × α)) (k : κ) : Option α :=
  match m with
  | [] => none
  | (k2, v) :: rest => if k2 = k then some v else pyDictGet rest k

/-- `int(digits)` for a digit string, most significant first. -/
def digitsToNat (cs : List Char) : Nat :=
  cs.foldl (fun n c => n * 10 + (c.toNat - '0'.toNat)) 0

/-- `float()` on a string of shape `\d+(\.\d+)?` (the only shape capture
group 2 of the ranking pattern can produce), as an exact rational. -/
def parseFloatQ (cs : List Char) : ℚ :=
  let intPart := cs.takeWhile (· ≠ '.')
  match cs.dropWhile (· ≠ '.') with
  | [] => digitsToNat intPart
  | _ :: frac => digitsToNat intPart + (digitsToNat frac : ℚ) / 10 ^ frac.length

/-- The `(name, score)` pair a single `finditer` match contributes:
`match.group(1).strip()` and `float(match.group(2))`. -/
def rankMatchPair (ch : List (List Char)) : List Char × ℚ :=
  (pyStrip (ch.getD 8 []), parseFloatQ (ch.getD 19 [] ++ ch.getD 20 []))

/-- All `(name, score)` pairs contributed by the `finditer` loop, in order. -/
def rankMatchPairs (ranking_text : String) : List (List Char × ℚ) :=
  (finditerAll rankPattern ranking_text.data).map rankMatchPair

/-- `AlzheimerDrugDiscovery._extract_scores`. -/
def extract_scores (ranking_text : String) : List (List Char × ℚ) :=
  if ranking_text.data = [] then []
  else (rankMatchPairs ranking_text).foldl (fun m p => pyDictSet m p.1 p.2) []

/-! ## MD5 (RFC 1321)

`LLMClient._get_cache_key` hashes `(prompt + model).encode()` with
`hashlib.md5` and uses the hex digest as cache key.  `hashlib` is a
stdlib primitive; we implement the algorithm directly, on byte lists with
32-bit words as `Nat` reduced `% 2^32`. -/

/-- Truncate to a 32-bit word. -/
def w32 (x : Nat) : Nat := x % 4294967296

/-- Rotate a 32-bit word left by `s` bits. -/
def rotl32 (x s : Nat) : Nat := w32 (x <<< s) ||| (x >>> (32 - s))

/-- UTF-8 encoding of one character (Python `str.encode()`). -/
def utf8Bytes (c : Char) : List Nat :=
  let n := c.toNat
  if n < 128 then [n]
  else if n < 2048 then [192 + n / 64, 128 + n % 64]
  else if n < 65536 then [224 + n / 4096, 128 + n / 64 % 64, 128 + n % 64]
  else [240 + n / 262144, 128 + n / 4096 % 64, 128 + n / 64 % 64, 128 + n % 64]

/-- UTF-8 bytes of a string. -/
def strBytes (s : String) : List Nat := (s.data.map utf8Bytes).flatten

/-- `count` little-endian bytes of `n`. -/
def leBytes : Nat → Nat → List Nat
  | _, 0 => []
  | n, count + 1 => n % 256 :: leBytes (n / 256) count

/-- MD5 padding: `0x80`, zeros to 56 mod 64, then the bit length as eight
little-endian bytes. -/
def md5Pad (msg : List Nat) : List Nat :=
  let zeros := (64 + 56 - (msg.length + 1) % 64) % 64
  msg ++ [128] ++ List.replicate zeros 0 ++ leBytes (msg.length * 8) 8

/-- The per-round shift amounts. -/
def md5S : List Nat :=
  [7, 12, 17, 22, 7, 12, 17, 22, 7, 12, 17, 22, 7, 12, 17, 22,
   5, 9, 14, 20, 5, 9, 14, 20, 5, 9, 14, 20, 5, 9, 14, 20,
   4, 11, 16, 23, 4, 11, 16, 23, 4, 11, 16, 23, 4, 11, 16, 23,
   6, 10, 15, 21, 6, 10, 15, 21, 6, 10, 15, 21, 6, 10, 15, 21]

/-- The sine-derived constants `K[i] = floor(2^32 * |sin(i+1)|)`. -/
def md5K : List Nat :=
  [3614090360, 3905402710, 606105819, 3250441966,
   4118548399, 1200080426, 2821735955, 4249261313,
   1770035416, 2336552879, 4294925233, 2304563134,
   1804603682, 4254626195, 2792965006, 1236535329,
   4129170786, 3225465664, 643717713, 3921069994,
   3593408605, 38016083, 3634488961, 3889429448,
   568446438, 3275163606, 4107603335, 1163531501,
   2850285829, 4243563512, 1735328473, 2368359562,
   4294588738, 2272392833, 1839030562, 4259657740,
   2763975236, 1272893353, 4139469664, 3200236656,
   681279174, 3936430074, 3572445317, 76029189,
   3654602809, 3873151461, 530742520, 3299628645,
   4096336452, 1126891415, 2878612391, 4237533241,
   1700485571, 2399980690, 4293915773, 2240044497,
   1873313359, 4264355552, 2734768916, 1309151649,
   4149444226, 3174756917, 718787259, 3951481745]

/-- The round function for round `i`. -/
def md5F (i b c d : Nat) : Nat :=
  if i < 16 then (b &&& c) ||| ((4294967295 ^^^ b) &&& d)
  else if i < 32 then (d &&& b) ||| ((4294967295 ^^^ d) &&& c)
  else if i < 48 then b ^^^ c ^^^ d
  else c ^^^ (b ||| (4294967295 ^^^ d))

/-- The message-word index for round `i`. -/
def md5G (i : Nat) : Nat :=
  if i < 16 then i
  else if i < 32 then (5 * i + 1) % 16
  else if i < 48 then (3 * i + 5) % 16
  else (7 * i) % 16

/-- One MD5 round on state `(a, b, c, d)` with message words `m`. -/
def md5Round (m : List Nat) (st : Nat × Nat × Nat × Nat) (i : Nat) :
    Nat × Nat × Nat × Nat :=
  let (a, b, c, d) := st
  let f := w32 (md5F i b c d + a + md5K.getD i 0 + m.getD (md5G i) 0)
  (d, w32 (b + rotl32 f (md5S.getD i 0)), b, c)

/-- The 16 little-endian 32-bit words of one 64-byte chunk. -/
def chunkWords (chunk : List Nat) : List Nat :=
  (List.range 16).map fun j =>
    chunk.getD (4 * j) 0 + 256 * chunk.getD (4 * j + 1) 0 +
    65536 * chunk.getD (4 * j + 2) 0 + 16777216 * chunk.getD (4 * j + 3) 0

/-- Process one 64-byte chunk. -/
def md5Chunk (st : Nat × Nat × Nat × Nat) (chunk : List Nat) :
    Nat × Nat × Nat × Nat :=
  let m := chunkWords chunk
  let r := (List.range 64).foldl (md5Round m) st
  (w32 (st.1 + r.1), w32 (st.2.1 + r.2.1),
   w32 (st.2.2.1 + r.2.2.1), w32 (st.2.2.2 + r.2.2.2))

/-- Split a byte list into 64-byte chunks (fuel-structural; fuel
`bytes.length` suffices since each step drops 64 bytes). -/
def toChunks : Nat → List Nat → List (List Nat)
  | _, [] => []
  | 0, _ :: _ => []
  | fuel + 1, b :: bs => (b :: bs).take 64 :: toChunks fuel (bs.drop 63)

/-- Lowercase hex of one nibble. -/
def hexNibble (n : Nat) : Char := "0123456789abcdef".data.getD n '0'

/-- Lowercase hex of a byte list. -/
def hexBytes (bs : List Nat) : List Char :=
  (bs.map (fun b => [hexNibble (b / 16), hexNibble (b % 16)])).flatten

/-- `hashlib.md5(s.encode()).hexdigest()`. -/
def md5Hex (s : String) : String :=
  let msg := md5Pad (strBytes s)
  let st := (toChunks msg.length msg).foldl md5Chunk
    (1732584193, 4023233417, 2562383102, 271733878)
  ⟨hexBytes (leBytes st.1 4 ++ leBytes st.2.1 4 ++
             leBytes st.2.2.1 4 ++ leBytes st.2.2.2 4)⟩

/-- `LLMClient._get_cache_key` (grapg.py lines 707-721): the MD5 hex
digest of the bare concatenation `prompt + model`. -/
def cacheKey (prompt model : String) : String := md5Hex (prompt ++ model)

/-! ## Mock responses

`LLMClient._initialize_mock_data` builds a dict keyed by model family
("meditron", "biomistral"), each mapping the five prompt categories to a
template produced by the `_generate_mock_*` helpers; the template texts
are transcribed verbatim from grapg.py lines 412-706. -/

/-- The base compound list of `_generate_mock_compounds_response` in grapg.py. -/
def mockCompoundsBase : List String := [
  "1. Memantine: NMDA receptor antagonist that helps reduce glutamate excitotoxicity, which is elevated in Alzheimer's disease. It blocks excessive NMDA receptor activity without disrupting normal function.",
  "2. Donepezil: Acetylcholinesterase inhibitor that increases acetylcholine levels in the brain by preventing its breakdown. It helps compensate for the loss of cholinergic neurons in Alzheimer's.",
  "3. Curcumin: Natural polyphenol with anti-inflammatory and antioxidant properties. It reduces neuroinflammation through inhibition of NFκB signaling and can bind to amyloid-beta, preventing aggregation.",
  "4. Rapamycin: mTOR inhibitor that enhances autophagy, helping clear protein aggregates like amyloid-beta and tau. It attenuates neuroinflammation through regulation of microglial activation.",
  "5. Sodium selenate: Activates PP2A phosphatase which dephosphorylates tau proteins, potentially reducing tau hyperphosphorylation and subsequent neurofibrillary tangle formation.",
  "6. GV-971 (Sodium oligomannate): Novel oligosaccharide that remodels gut microbiota, reducing amino acid-shaped metabolites associated with neuroinflammation. It also appears to reduce amyloid-beta deposition.",
  "7. ISRIB: Integrated stress response inhibitor that enhances translation and potentially reduces neuroinflammation while supporting synaptic function and memory consolidation.",
  "8. NMZ (J147): Curcumin derivative that acts on multiple pathways, including mitochondrial function, inflammation, and oxidative stress. It can reduce amyloid and tau pathology in animal models."
]

/-- `LLMClient._generate_mock_compounds_response` (grapg.py): base list plus two model-specific entries, joined by blank lines. -/
def mockCompoundsResponse (model : String) : String :=
  let compounds := mockCompoundsBase ++
    (if model == "biomistral" then [
      "9. Lecanemab: Monoclonal antibody targeting aggregated soluble and insoluble forms of amyloid-beta, reducing plaque formation and potentially slowing cognitive decline in early-stage Alzheimer's disease.",
      "10. Salsalate: Non-steroidal anti-inflammatory drug (NSAID) that inhibits acetyltransferase p300 activity, reducing tau acetylation and pathological tau spreading."]
    else [
      "9. Aducanumab: Monoclonal antibody that selectively targets aggregated forms of amyloid-beta, helping to clear amyloid plaques and potentially slow disease progression in early stages.",
      "10. CMS121: Synthetic flavonoid that protects against lipid peroxidation and ferroptosis, preserving mitochondrial function and reducing oxidative damage."])
  String.intercalate "\n\n" compounds

/-- `LLMClient._generate_mock_interaction_response` (grapg.py). -/
def mockInteractionResponse (model : String) : String :=
  if model == "biomistral" then
    "\n            For the compound Memantine:\n            \n            1. Effect on NMDA receptors (GRIN1, GRIN2A-D genes): Inhibition\n               Mechanism: Memantine is a non-competitive, moderate-affinity NMDA receptor antagonist that preferentially blocks excessive NMDA receptor activity without disrupting normal function. It binds to the open-channel conformation, reducing calcium influx during pathological conditions but allowing physiological activation.\n               \n            2. Effect on glutamate excitotoxicity pathway genes (GRIA1-4, GRM1-8): Modulation\n               Mechanism: By blocking excessive glutamate signaling through NMDA receptors, memantine indirectly modulates the expression of genes involved in excitotoxicity. It reduces the downstream activation of calcium-dependent enzymes like calpains and caspases that contribute to neuronal damage.\n               \n            3. Effect on neuroinflammatory genes (TNF, IL1B, IL6): Indirect inhibition\n               Mechanism: Memantine's reduction of excitotoxicity leads to decreased activation of microglia and astrocytes, thereby reducing the expression of proinflammatory cytokines. This occurs through decreased NFκB pathway activation.\n               \n            4. Effect on oxidative stress genes (SOD1, SOD2, GPX): Indirect positive modulation\n               Mechanism: By preventing excessive calcium influx, memantine reduces ROS production through mitochondrial dysfunction, thereby decreasing oxidative stress and potentially increasing expression of antioxidant defense genes.\n            "
  else
    "\n            For the compound Donepezil:\n            \n            1. Effect on cholinergic system genes (ACHE, CHAT, SLC5A7): Inhibition of ACHE\n               Mechanism: Donepezil selectively and reversibly inhibits acetylcholinesterase, the enzyme responsible for acetylcholine hydrolysis. This inhibition leads to increased acetylcholine concentration in the synaptic cleft, enhancing cholinergic transmission.\n               \n            2. Effect on neurotrophin pathway genes (BDNF, NGF, NT3): Indirect activation\n               Mechanism: Enhanced cholinergic signaling promotes the expression of neurotrophic factors, particularly BDNF and NGF, through increased activation of CREB transcription factor downstream of muscarinic receptor signaling.\n               \n            3. Effect on amyloid processing (APP, BACE1, PSEN1): Modulation\n               Mechanism: Donepezil may promote non-amyloidogenic processing of APP through α-secretase activation, potentially reducing Aβ production. This occurs through PKC activation downstream of muscarinic receptor stimulation.\n               \n            4. Effect on apoptotic genes (BCL2, BAX, CASP3): Anti-apoptotic\n               Mechanism: Increased cholinergic signaling activates PI3K/Akt survival pathways, which promote expression of anti-apoptotic factors like BCL2 while inhibiting pro-apoptotic factors such as BAX.\n            "

/-- `LLMClient._generate_mock_combination_response` (grapg.py). -/
def mockCombinationResponse (model : String) : String :=
  if model == "biomistral" then
    "\n            For the combination therapy of Memantine and Donepezil for Alzheimer's disease:\n            \n            1. Synergistic Effects:\n               The combination addresses multiple aspects of AD pathophysiology simultaneously - excitotoxicity through memantine's NMDA receptor antagonism and cholinergic deficits through donepezil's AChE inhibition. Clinical studies have shown greater cognitive benefits with the combination than either drug alone, particularly in moderate-to-severe AD. The synergy likely stems from the complementary mechanisms targeting distinct neurotransmitter systems.\n            \n            2. Molecular Pathway Complementarity:\n               - Memantine reduces excitotoxicity and calcium-mediated neurodegeneration\n               - Donepezil enhances cholinergic signaling and may promote α-secretase activity\n               - Together, they may provide enhanced neuroprotection through:\n                 * Reduced tau hyperphosphorylation (via reduced calcium signaling)\n                 * Enhanced neurotrophic support (via cholinergic stimulation of BDNF)\n                 * Improved mitochondrial function (reduced stress + enhanced metabolism)\n                 * Balanced glutamatergic/cholinergic signaling restoring network function\n            \n            3. Potential Risks:\n               The combination generally shows a similar safety profile to the individual drugs, with no clinically significant pharmacokinetic interactions. However, patients may experience:\n               - Enhanced cholinergic side effects (nausea, diarrhea, insomnia)\n               - Potential for dizziness, headache and confusion\n               - Need for careful dosing in patients with renal impairment (for memantine)\n            \n            4. Optimal Dosing Strategy:\n               The recommended approach is sequential introduction:\n               - Start with donepezil 5mg daily for 4-6 weeks\n               - Increase to donepezil 10mg daily if tolerated\n               - After stable donepezil therapy, add memantine 5mg daily\n               - Titrate memantine weekly in 5mg increments to target dose of 10mg twice daily\n               The slow titration reduces side effects and allows for assessment of tolerability.\n            \n            5. Cell-Type Effects:\n               - Neurons: Improved synaptic function through balanced glutamatergic/cholinergic signaling; reduced excitotoxic damage and enhanced trophic support\n               - Microglia: Reduced activation and inflammatory signaling through decreased excitotoxicity; cholinergic modulation of microglial phenotype toward anti-inflammatory states\n               - Astrocytes: Normalized calcium signaling and glutamate uptake; reduced reactive astrogliosis; improved metabolic support for neurons\n            "
  else
    "\n            For the combination therapy of Rapamycin and Curcumin for Alzheimer's disease:\n            \n            1. Synergistic Effects:\n               This combination presents strong potential for synergy through complementary mechanisms. Rapamycin inhibits mTOR, enhancing autophagy and protein clearance, while curcumin provides broad anti-inflammatory and antioxidant protection. Together, they may address multiple facets of AD pathology: protein aggregation, neuroinflammation, oxidative stress, and metabolic dysfunction. The combined approach could overcome the limited BBB penetration of curcumin through mTOR-mediated enhancements in cellular transport mechanisms.\n            \n            2. Molecular Pathway Complementarity:\n               - Autophagy enhancement: Rapamycin's mTOR inhibition combined with curcumin's TFEB activation could synergistically increase clearance of Aβ and tau aggregates\n               - Anti-inflammatory effects: Dual targeting of NFκB signaling through different mechanisms (mTOR-dependent and direct inhibition)\n               - Antioxidant protection: Curcumin's direct ROS scavenging complemented by rapamycin's enhancement of autophagy-mediated removal of damaged mitochondria\n               - Metabolic regulation: Improved insulin sensitivity and energy metabolism through combined effects on mTOR and AMPK pathways\n            \n            3. Potential Risks:\n               - Immunosuppression: Rapamycin's effects on T-cell proliferation could increase infection risk\n               - Metabolic effects: Potential for hyperlipidemia and glucose intolerance with rapamycin\n               - Drug interactions: Curcumin inhibits multiple CYP enzymes which could affect rapamycin metabolism\n               - Possible gastrointestinal disturbances from both compounds\n               - Unknown long-term effects of chronic mTOR inhibition in elderly populations\n            \n            4. Optimal Dosing Strategy:\n               - Rapamycin: Consider intermittent dosing (weekly or biweekly) to minimize side effects while maintaining autophagy induction - possibly 2-5mg weekly\n               - Curcumin: Daily administration of bioavailability-enhanced formulation (liposomal, nanoparticle, or with piperine) at 400-800mg daily\n               - Administration sequence: Curcumin daily with rapamycin on specific schedule\n               - Monitoring: Regular assessment of immune function, lipid profiles, and glucose levels\n            \n            5. Cell-Type Effects:\n               - Neurons: Enhanced protein quality control and reduced toxic aggregate burden; improved metabolic efficiency and reduced oxidative damage\n               - Microglia: Shift from pro-inflammatory (M1) to anti-inflammatory (M2) phenotype; enhanced phagocytic capacity for Aβ clearance\n               - Astrocytes: Reduced reactive astrogliosis; improved metabolic support for neurons; enhanced glutathione production\n               - Oligodendrocytes: Protection from oxidative stress; potential enhancement of remyelination capacity through reduced inflammation\n            "

/-- `LLMClient._generate_mock_literature_response` (grapg.py). -/
def mockLiteratureResponse (model : String) : String :=
  if model == "biomistral" then
    "\n            For the compound Memantine for Alzheimer's disease treatment:\n            \n            1. Scientific Literature Support:\n               Memantine has substantial clinical evidence supporting its use in Alzheimer's disease. The primary mechanism involves non-competitive, moderate-affinity NMDA receptor antagonism that blocks excessive glutamate activity while preserving physiological function. Key studies include work by Danysz and Parsons (2012) establishing its mechanism of action, and clinical trials by Reisberg et al. (2003) and Tariot et al. (2004) demonstrating efficacy in moderate-to-severe AD.\n               \n            2. Clinical Trials:\n               Multiple Phase III clinical trials have demonstrated memantine's efficacy:\n               - Reisberg et al. (2003): 28-week randomized controlled trial showing significant benefits in moderate-to-severe AD\n               - Tariot et al. (2004): Demonstrated benefits of memantine when added to donepezil in moderate-to-severe AD\n               - Grossberg et al. (2013): Extended 24-week study confirming benefits in combination therapy\n               - MEM-MD-02 and MEM-MD-12 studies showed efficacy for the extended-release formulation\n               \n               Animal studies in various transgenic models (APP/PS1, 5xFAD, 3xTg) have consistently shown reductions in cognitive deficits, amyloid burden, and tau pathology.\n               \n            3. Evidence Strength:\n               The evidence for memantine in moderate-to-severe AD is STRONG, supported by multiple high-quality RCTs and meta-analyses (e.g., Matsunaga et al., 2015). The evidence for mild-to-moderate AD is MODERATE, with mixed results from clinical trials. The evidence for its effects on disease modification, rather than symptomatic improvement, is PRELIMINARY.\n               \n            4. Contradictory Findings:\n               Some studies have reported limited or no benefit in mild-to-moderate AD:\n               - Schneider et al. (2011): Meta-analysis found minimal clinical benefit in mild AD\n               - DOMINO-AD trial (Howard et al., 2012): Limited benefits when adding memantine to donepezil in moderate AD\n               - Some studies suggest the effect size may be smaller than initially reported\n               \n               The timing of intervention appears critical, with greater benefits observed in more advanced disease stages where excitotoxicity may play a larger role.\n            "
  else
    "\n            For the compound Rapamycin for Alzheimer's disease treatment:\n            \n            1. Scientific Literature Support:\n               Rapamycin has a growing body of preclinical evidence supporting its potential in Alzheimer's disease through inhibition of mTOR (mechanistic target of rapamycin), enhancing autophagy, and reducing protein aggregation. Key studies include work by Caccamo et al. (2010) showing improved cognitive function and reduced pathology in AD mouse models, and Richardson et al. (2015) demonstrating reduced Aβ and tau pathology through enhanced autophagy.\n               \n            2. Clinical Trials and Animal Studies:\n               - No large-scale clinical trials specifically for AD have been completed\n               - Phase 1b AMBAR trial (NCT04200911) is evaluating rapamycin in mild cognitive impairment\n               - Multiple rodent studies including:\n                 * Caccamo et al. (2010): Improved cognition in 3xTg-AD mice\n                 * Spilman et al. (2010): Reduced Aβ and improved cognition in PDAPP mice\n                 * Lin et al. (2017): Rescued synaptic and cognitive deficits in APP/PS1 mice\n                 * Jiang et al. (2014): Decreased tau pathology via enhanced autophagy\n               \n            3. Evidence Strength:\n               The evidence for rapamycin in AD is MODERATE in preclinical models but PRELIMINARY in humans. Animal studies consistently show benefits, but human data is limited primarily to observational studies and small trials. Strong mechanistic rationale exists based on autophagy enhancement and metabolic benefits observed in longevity studies.\n               \n            4. Contradictory Findings:\n               - Some studies report potential negative effects on neuronal function with prolonged mTOR inhibition (e.g., Talboom et al., 2015)\n               - Concern exists about potential side effects (immunosuppression, delayed wound healing, metabolic effects)\n               - Questions remain about optimal dosing, as intermittent dosing may provide benefits while minimizing side effects\n               - The translation gap between rodent studies and human application remains significant\n               \n               The balance of evidence suggests rapamycin has strong potential for repurposing in AD, but optimal timing, dosing, and formulation require further investigation.\n            "

/-- `LLMClient._generate_mock_report_response` (grapg.py). -/
def mockReportResponse (_model : String) : String :=
  "\n        # ALZHEIMER'S DRUG DISCOVERY REPORT\n        ## Combining Transcriptomics and Advanced AI Analysis\n\n        ### 1. EXECUTIVE SUMMARY\n\n        Our comprehensive analysis integrating transcriptomic data from 5xFAD mouse models with AI-driven drug discovery methods has identified several promising therapeutic candidates for Alzheimer's disease. The top candidates with the strongest potential include Memantine, Rapamycin, and Curcumin, with particularly strong evidence for combination approaches targeting multiple disease pathways simultaneously. The analysis points to significant dysregulation in neuroinflammatory pathways, protein aggregation mechanisms, and synaptic function, with candidate compounds addressing these pathological processes through complementary mechanisms.\n\n        ### 2. METHODOLOGY OVERVIEW\n\n        This analysis employed a novel integrated approach combining:\n        - RNA-seq data analysis from 5xFAD mouse models across multiple brain regions, ages, and sexes\n        - Differential gene expression analysis identifying key dysregulated genes\n        - Pathway enrichment analysis highlighting affected biological processes\n        - AI-powered identification of therapeutic compounds targeting these pathways\n        - Simulation of compound-gene interactions and combination therapies\n        - Literature validation of predictions against existing evidence\n\n        This multi-modal approach enables more comprehensive candidate identification than traditional drug discovery methods by integrating molecular signatures with mechanism-based therapeutic predictions.\n\n        ### 3. TOP CANDIDATE COMPOUNDS\n\n        1. **Memantine**: NMDA receptor antagonist reducing excitotoxicity\n        2. **Rapamycin**: mTOR inhibitor enhancing autophagy and protein clearance\n        3. **Curcumin**: Natural polyphenol with anti-inflammatory and antioxidant properties\n        4. **Donepezil**: Acetylcholinesterase inhibitor enhancing cholinergic function\n        5. **Sodium Selenate**: Activator of PP2A phosphatase reducing tau hyperphosphorylation\n\n        ### 4. MECHANISM OF ACTION\n\n        The identified compounds address key dysregulated pathways in Alzheimer's pathology:\n\n        - **Neuroinflammation**: Several compounds (curcumin, rapamycin) target the overactivated inflammatory response identified in the transcriptomic data, reducing NFκB signaling and microglial activation.\n        \n        - **Protein Aggregation**: Rapamycin enhances autophagy to clear protein aggregates, while curcumin and sodium selenate address tau pathology through different mechanisms.\n        \n        - **Excitotoxicity**: Memantine protects against the glutamate signaling dysfunction observed in the gene expression data, reducing calcium-mediated neurodegeneration.\n        \n        - **Synaptic Dysfunction**: Donepezil addresses cholinergic deficits, while multiple compounds support synaptic integrity through reduced inflammation and oxidative stress.\n\n        ### 5. PREDICTED EFFICACY\n\n        Based on simulated drug-gene interactions:\n\n        - Memantine shows strongest interaction with excitotoxicity-related genes, with moderate impact on neuroinflammation\n        - Rapamycin demonstrates broad effects across protein quality control pathways and metabolic regulation\n        - Curcumin exhibits powerful anti-inflammatory effects but limited BBB penetration\n        - Combination approaches show significantly enhanced efficacy profiles compared to monotherapy\n\n        ### 6. PROMISING COMBINATION THERAPIES\n\n        1. **Memantine + Donepezil**: Complementary targeting of excitotoxicity and cholinergic deficit with established clinical evidence\n        \n        2. **Rapamycin + Curcumin**: Synergistic enhancement of autophagy and reduction of neuroinflammation\n        \n        3. **Sodium Selenate + Memantine**: Simultaneous targeting of tau pathology and excitotoxicity\n        \n        Combination approaches consistently outperform single-agent approaches in our predictive models by addressing multiple pathological mechanisms simultaneously.\n\n        ### 7. LITERATURE VALIDATION\n\n        - Memantine has strong clinical evidence in moderate-to-severe AD with FDA approval\n        - Rapamycin shows consistent benefits in multiple AD mouse models but limited human data\n        - Curcumin has extensive preclinical evidence but bioavailability challenges\n        - The memantine-donepezil combination has positive Phase III trial results and clinical approval\n\n        ### 8. EXPERIMENTAL DESIGN RECOMMENDATIONS\n\n        To validate these findings, we recommend:\n\n        1. **In Vivo Confirmation Studies**:\n           - Test predicted compounds in 5xFAD mice at multiple disease stages\n           - Include both male and female animals across different ages\n           - Employ comprehensive cognitive assessment battery\n           - Analyze regional-specific effects (hippocampus vs. cortex)\n\n        2. **Biomarker Development**:\n           - Identify gene expression signatures correlating with treatment response\n           - Develop translatable imaging approaches to monitor target engagement\n           - Establish blood biomarkers reflecting central therapeutic effects\n\n        3. **Optimization Studies**:\n           - Test varied dosing regimens, particularly for combination approaches\n           - Evaluate novel delivery methods to enhance BBB penetration\n           - Identify optimal treatment windows for maximum efficacy\n\n        ### 9. TRANSLATIONAL POTENTIAL\n\n        The identified therapeutic approaches have strong translational potential:\n\n        - Several candidates are FDA-approved drugs, facilitating repurposing\n        - The combination of memantine with donepezil is already in clinical use\n        - Novel combinations could be rapidly advanced to clinical trials\n        - Bioavailability enhancements for compounds like curcumin are actively being developed\n        - The multi-target approach aligns with the complex pathophysiology of AD\n\n        The most promising immediate path forward is optimizing intermittent rapamycin dosing combined with bioavailability-enhanced curcumin, which could proceed relatively quickly to early-phase clinical trials given their established safety profiles.\n        "


/-- Python `str.lower()`, character-wise (the model and prompt strings
handled by the source are ASCII). -/
def pyLower (s : String) : String := ⟨s.data.map Char.toLower⟩

/-- Does `hay` start with `needle`? -/
def startsWithCh : List Char → List Char → Bool
  | [], _ => true
  | _ :: _, [] => false
  | a :: as, b :: bs => a == b && startsWithCh as bs

/-- Does `hay` contain `needle` as a contiguous run? -/
def containsSeq (needle : List Char) : List Char → Bool
  | [] => startsWithCh needle []
  | b :: bs => startsWithCh needle (b :: bs) || containsSeq needle bs

/-- Python substring containment, `needle in hay`. -/
def pyIn (needle hay : String) : Bool := containsSeq needle.data hay.data

/-- The keys of the `_mock_data` dict built by
`LLMClient._initialize_mock_data` (grapg.py lines 388-411). -/
def mockDataKeys : List String := ["meditron", "biomistral"]

/-- The family lookup of `_generate_mock_response`: the template for a
family and a category key, mirroring the `_mock_data` dict entries. -/
def mockData (family category : String) : String :=
  if category == "compounds" then mockCompoundsResponse family
  else if category == "interaction" then mockInteractionResponse family
  else if category == "combination" then mockCombinationResponse family
  else if category == "literature" then mockLiteratureResponse family
  else mockReportResponse family

/-- The model-normalization step of `LLMClient._generate_mock_response`
(grapg.py lines 808-837): lowercased text before the first `/`, resolved
to `"meditron"` when the result is not a `_mock_data` key. -/
def resolveBaseModel (model : String) : String :=
  let base := if model.data.contains '/'
    then ⟨model.data.takeWhile (· ≠ '/')⟩ else model
  let base := pyLower base
  if mockDataKeys.contains base then base else "meditron"

/-- The prompt-category routing of `_generate_mock_response`. -/
def mockCategory (prompt : String) : String :=
  let p := pyLower prompt
  if pyIn "compounds" p || pyIn "drugs" p then "compounds"
  else if pyIn "interaction" p || pyIn "molecular mechanism" p then "interaction"
  else if pyIn "combination" p || pyIn "synerg" p then "combination"
  else if pyIn "literature" p || pyIn "evidence" p then "literature"
  else "report"

/-- `LLMClient._generate_mock_response`. -/
def generateMockResponse (prompt model : String) : String :=
  mockData (resolveBaseModel model) (mockCategory prompt)

/-! ## The query client

`LLMClient.query` (grapg.py lines 723-806).  The network is modelled as a
function from the attempt number to the outcome of that `requests.post`
call; the cache directory as an association list from cache key to the
`response` text stored in the key's file (reads and writes are modelled as
succeeding — the source logs and ignores cache I/O errors).  Waiting
(`time.sleep`) has no observable effect and is omitted. -/

/-- Outcome of one network attempt: a raised `requests.RequestException`,
a non-200 status, a 200 body that fails JSON decoding, or a 200 JSON body
whose `response` field is `r?` (absent when the body has no such field). -/
inductive NetOutcome where
  | exn
  | httpError (code : Nat)
  | badJson
  | ok (r? : Option String)
deriving DecidableEq

/-- The flags of an `LLMClient` instance and its cache directory. -/
structure ClientState where
  mockResponses : Bool
  useCache : Bool
  cache : List (String × String)
deriving DecidableEq

/-- Result of a query: the returned text, the cache directory afterwards,
and how many network requests were performed. -/
structure QueryResult where
  text : String
  cache : List (String × String)
  netCalls : Nat
deriving DecidableEq

/-- The `for attempt in range(max_retries)` loop of `LLMClient.query`:
`calls` counts attempts already made, `n` is the number remaining.  A 200
response with a decodable body is accepted: its text is
`result.get('response', '')`, written to the cache when caching is on.
Any other outcome falls through to the next attempt; when all attempts
fail, the loop falls back to `_generate_mock_response`. -/
def queryAttempts (prompt model : String) (useCache : Bool)
    (cache : List (String × String)) (env : Nat → NetOutcome) :
    Nat → Nat → QueryResult
  | calls, 0 => ⟨generateMockResponse prompt model, cache, calls⟩
  | calls, n + 1 =>
    match env calls with
    | .ok r? =>
      let text := r?.getD ""
      let cache2 := if useCache
        then pyDictSet cache (cacheKey prompt model) text else cache
      ⟨text, cache2, calls + 1⟩
    | _ => queryAttempts prompt model useCache cache env (calls + 1) n

/-- `LLMClient.query`: mock mode short-circuits to the mock response;
otherwise a cache hit (caching enabled) returns the stored text with no
network request; otherwise the retry loop runs. -/
def query (st : ClientState) (prompt model : String) (env : Nat → NetOutcome)
    (maxRetries : Nat := 3) : QueryResult :=
  if st.mockResponses then ⟨generateMockResponse prompt model, st.cache, 0⟩
  else if st.useCache then
    match pyDictGet st.cache (cacheKey prompt model) with
    | some t => ⟨t, st.cache, 0⟩
    | none => queryAttempts prompt model st.useCache st.cache env 0 maxRetries
  else queryAttempts prompt model st.useCache st.cache env 0 maxRetries

/-! ## The combination-therapy stage

`AlzheimerDrugDiscovery.simulate_combination_therapy` (grapg.py lines
1594-1665).  The stage takes the first `top_n` compound names, forms all
unordered pairs (`itertools.combinations` order) and queries one model per
pair.  The query result is abstracted as a function `qres` of the pair and
the model queried (the combination prompt is a pure, injective function of
the pair, so `(pair, model)` determines `(prompt, model)`).

The source has two branches.  With `rich` available it loops sequentially
and picks the model by the parity of `len(self.combination_therapies)` —
the number of pairs whose result has been *stored* so far.  Without `rich`
it submits to a `ThreadPoolExecutor`, picking the model by the parity of
the submission index `i` of `enumerate(compound_pairs)`.
(`pipeline.py` lines 502-552 always uses the stored-count variant.) -/

/-- `itertools.combinations(xs, 2)` in order. -/
def pairsOf : List α → List (α × α)
  | [] => []
  | x :: xs => xs.map (fun y => (x, y)) ++ pairsOf xs

/-- `f"{pair[0]} + {pair[1]}"` -/
def pairKey (pair : String × String) : String :=
  pair.1 ++ " + " ++ pair.2

/-- The sequential (`rich`) loop: threading the therapies dict, choosing
`meditron_model` when `len(combination_therapies)` is even, else
`biomistral_model`, storing a result only when non-empty.  Also records,
per pair, the model it was queried with. -/
def richCombLoop (qres : String × String → String → String)
    (med bio : String) :
    List (String × String) → List (String × String) →
    List ((String × String) × String) →
    List (String × String) × List ((String × String) × String)
  | [], th, asg => (th, asg)
  | pair :: rest, th, asg =>
    let model := if th.length % 2 == 0 then med else bio
    let res := qres pair model
    let th2 := if res ≠ "" then pyDictSet th (pairKey pair) res else th
    richCombLoop qres med bio rest th2 (asg ++ [(pair, model)])

/-- The model each submitted pair is queried with in the executor branch:
`self.meditron_model if i % 2 == 0 else self.biomistral_model` over
`enumerate(compound_pairs)`, fixed at submission time. -/
def executorAssignments (med bio : String) (pairs : List (String × String)) :
    List ((String × String) × String) :=
  pairs.enum.map (fun p => (p.2, if p.1 % 2 == 0 then med else bio))

/-- The rich-branch stage: guard `len(compounds) < 2`, take `top_n`
names, build pairs, run the loop; returns
(success, therapies, per-pair model assignments). -/
def simulateCombinationRich (qres : String × String → String → String)
    (med bio : String) (compounds : List Compound) (top_n : Nat) :
    Bool × List (String × String) × List ((String × String) × String) :=
  if compounds.length < 2 then (false, [], [])
  else
    let names := (compounds.take top_n).map fun c => ⟨c.name⟩
    let pairs := pairsOf names
    let (th, asg) := richCombLoop qres med bio pairs [] []
    (th.length ≠ 0, th, asg)

/-! ## The pipeline driver

`AlzheimerDrugDiscovery.run_pipeline` (grapg.py lines 1890-1978;
pipeline.py lines 657-717 is identical in policy).  Stage functions are
abstracted by a success oracle `ok` and, for the two stages whose failure
the driver patches up, oracle-provided success values; the driver itself
substitutes the simulated placeholders exactly as in the source. -/

/-- The nine pipeline stages in driver order. -/
inductive Stage where
  | loadData
  | diffExpr
  | pathway
  | identifyCompounds
  | interactions
  | ranking
  | combination
  | literature
  | report
deriving DecidableEq, Repr

/-- The placeholder gene lists the driver substitutes when differential
expression fails: `[f"UPR_GENE_{i}" for i in range(50)]` and
`[f"DOWN_GENE_{i}" for i in range(50)]`. -/
def upGenePlaceholder : List String :=
  (List.range 50).map (fun i => "UPR_GENE_" ++ toString i)

/-- Placeholder downregulated gene list. -/
def downGenePlaceholder : List String :=
  (List.range 50).map (fun i => "DOWN_GENE_" ++ toString i)

/-- The fixed pathway list the driver substitutes when pathway analysis
fails. -/
def pathwayPlaceholder : List String :=
  ["Amyloid-beta metabolism",
   "Tau protein binding",
   "Neuroinflammatory response",
   "Microglial activation",
   "Synaptic dysfunction"]

/-- Result of a pipeline run: the boolean returned by `run_pipeline`, the
stage functions invoked (in order), and the gene/pathway state at exit. -/
structure PipelineRun where
  succeeded : Bool
  attempted : List Stage
  upGenes : List String
  downGenes : List String
  topPathways : List String
deriving DecidableEq, Repr

/-- `run_pipeline`: `ok s` is the success/failure returned by stage `s`;
`upVal`/`downVal`/`pathVal` are the values a *successful* differential
expression / pathway stage leaves in the instance state. -/
def runPipeline (ok : Stage → Bool)
    (upVal downVal pathVal : List String) : PipelineRun :=
  let att := [Stage.loadData]
  if !ok .loadData then ⟨false, att, [], [], []⟩ else
  let att := att ++ [Stage.diffExpr]
  let up := if ok .diffExpr then upVal else upGenePlaceholder
  let down := if ok .diffExpr then downVal else downGenePlaceholder
  let att := att ++ [Stage.pathway]
  let paths := if ok .pathway then pathVal else pathwayPlaceholder
  let att := att ++ [Stage.identifyCompounds]
  if !ok .identifyCompounds then ⟨false, att, up, down, paths⟩ else
  let att := att ++ [Stage.interactions]
  if !ok .interactions then ⟨false, att, up, down, paths⟩ else
  -- ranking, combination therapy and literature validation: recoverable,
  -- the driver only logs a warning on failure and substitutes nothing
  let att := att ++ [Stage.ranking, Stage.combination, Stage.literature]
  let att := att ++ [Stage.report]
  if !ok .report then ⟨false, att, up, down, paths⟩ else
  ⟨true, att, up, down, paths⟩

/-- All nine stages in driver order. -/
def allStages : List Stage :=
  [.loadData, .diffExpr, .pathway, .identifyCompounds, .interactions,
   .ranking, .combination, .literature, .report]

/-! ## Dictionary lemmas -/

theorem pyDictGet_map_replace [DecidableEq κ] (m : List (κ × α)) (k k' : κ)
    (v : α) (h : k' ≠ k) :
    pyDictGet (m.map (fun p => if p.1 = k then (k, v) else p)) k' =
      pyDictGet m k' := by
  induction m with
  | nil => rfl
  | cons a rest ih =>
    obtain ⟨ak, av⟩ := a
    by_cases ha : ak = k
    · subst ha
      rw [List.map_cons,
        show (if ((ak, av) : κ × α).1 = ak then (ak, v) else (ak, av)) =
          (ak, v) from by simp]
      simp [pyDictGet, Ne.symm h, ih]
    · rw [List.map_cons,
        show (if ((ak, av) : κ × α).1 = k then (k, v) else (ak, av)) =
          (ak, av) from by simp [ha]]
      simp [pyDictGet, ih]

theorem pyDictGet_map_replace_hit [DecidableEq κ] (m : List (κ × α)) (k : κ)
    (v : α) (h : m.any (fun p => p.1 = k)) :
    pyDictGet (m.map (fun p => if p.1 = k then (k, v) else p)) k = some v := by
  induction m with
  | nil => simp at h
  | cons a rest ih =>
    obtain ⟨ak, av⟩ := a
    by_cases ha : ak = k
    · subst ha
      rw [List.map_cons,
        show (if ((ak, av) : κ × α).1 = ak then (ak, v) else (ak, av)) =
          (ak, v) from by simp]
      simp [pyDictGet]
    · simp only [List.any_cons, Bool.or_eq_true, decide_eq_true_eq] at h
      rcases h with h | h
      · exact absurd h ha
      · rw [List.map_cons,
          show (if ((ak, av) : κ × α).1 = k then (k, v) else (ak, av)) =
            (ak, av) from by simp [ha]]
        simp [pyDictGet, ha, ih h]

theorem pyDictGet_append_single [DecidableEq κ] (m : List (κ × α)) (k k' : κ)
    (v : α) :
    pyDictGet (m ++ [(k, v)]) k' =
      match pyDictGet m k' with
      | some w => some w
      | none => if k = k' then some v else none := by
  induction m with
  | nil => rfl
  | cons a rest ih =>
    obtain ⟨ak, av⟩ := a
    by_cases hk : ak = k'
    · simp [pyDictGet, hk]
    · simp [pyDictGet, hk, ih]

theorem pyDictGet_none_of_not_any [DecidableEq κ] (m : List (κ × α)) (k : κ)
    (h : ¬ m.any (fun p => p.1 = k)) : pyDictGet m k = none := by
  induction m with
  | nil => rfl
  | cons a rest ih =>
    obtain ⟨ak, av⟩ := a
    simp only [List.any_cons, Bool.or_eq_true, decide_eq_true_eq] at h
    push_neg at h
    simp only [pyDictGet, if_neg h.1]
    exact ih (by simpa using h.2)

/-- Lookup after `d[k] = v`. -/
theorem pyDictGet_pyDictSet [DecidableEq κ] (m : List (κ × α)) (k k' : κ)
    (v : α) :
    pyDictGet (pyDictSet m k v) k' = if k' = k then some v else pyDictGet m k' := by
  unfold pyDictSet
  by_cases hany : m.any (fun p => p.1 = k)
  · rw [if_pos hany]
    by_cases hk : k' = k
    · subst hk; rw [if_pos rfl, pyDictGet_map_replace_hit m k' v hany]
    · rw [if_neg hk, pyDictGet_map_replace m k k' v hk]
  · rw [if_neg hany, pyDictGet_append_single]
    by_cases hk : k' = k
    · subst hk
      rw [if_pos rfl, pyDictGet_none_of_not_any m k' hany, if_pos rfl]
    · rw [if_neg hk, if_neg (fun hsym => hk hsym.symm)]
      cases hg : pyDictGet m k' <;> simp

/-- Membership after `d[k] = v`: either an original entry or value `v`. -/
theorem mem_pyDictSet [DecidableEq κ] (m : List (κ × α)) (k : κ) (v : α)
    (q : κ × α) (hq : q ∈ pyDictSet m k v) : q ∈ m ∨ q.2 = v := by
  unfold pyDictSet at hq
  split at hq
  · rcases List.mem_map.mp hq with ⟨p, hp, he⟩
    by_cases hpk : p.1 = k
    · right; rw [if_pos hpk] at he; rw [← he]
    · left; rw [if_neg hpk] at he; rwa [← he]
  · rcases List.mem_append.mp hq with h | h
    · left; exact h
    · right
      rw [List.mem_singleton.mp h]

/-- The value found for `k` after folding `d[k] = v` updates over `ps`:
the value of the last pair of `ps` with key `k`, else the initial value. -/
theorem pyDictGet_foldl_set [DecidableEq κ] (ps : List (κ × α))
    (m : List (κ × α)) (k : κ) :
    pyDictGet (ps.foldl (fun d p => pyDictSet d p.1 p.2) m) k =
      match (ps.reverse.find? (fun p => p.1 = k)).map (·.2) with
      | some w => some w
      | none => pyDictGet m k := by
  induction ps generalizing m with
  | nil => rfl
  | cons p rest ih =>
    simp only [List.foldl_cons, List.reverse_cons, ih]
    rw [List.find?_append]
    cases hfind : rest.reverse.find? (fun q => q.1 = k) with
    | some w => simp
    | none =>
      simp only [Option.none_or]
      rw [pyDictGet_pyDictSet]
      by_cases hk : k = p.1
      · rw [if_pos hk]
        simp [List.find?, hk.symm]
      · rw [if_neg hk]
        have : (decide (p.1 = k)) = false := by
          simp; exact fun h => hk h.symm
        simp [List.find?, this]

/-! ## Score-extractor facts -/

/-- Every parsed score is nonnegative (the digit string denotes a
nonnegative decimal). -/
theorem parseFloatQ_nonneg (cs : List Char) : 0 ≤ parseFloatQ cs := by
  unfold parseFloatQ
  split
  · exact Nat.cast_nonneg _
  · exact add_nonneg (Nat.cast_nonneg _)
      (div_nonneg (Nat.cast_nonneg _) (by positivity))

/-- Folding `d[k] = v` updates preserves nonnegative values. -/
theorem foldl_set_values_nonneg [DecidableEq κ]
    (ps : List (κ × ℚ)) (m : List (κ × ℚ))
    (hps : ∀ p ∈ ps, 0 ≤ p.2) (hm : ∀ q ∈ m, 0 ≤ q.2) :
    ∀ q ∈ ps.foldl (fun d p => pyDictSet d p.1 p.2) m, 0 ≤ q.2 := by
  induction ps generalizing m with
  | nil => exact hm
  | cons p rest ih =>
    intro q hq
    refine ih (pyDictSet m p.1 p.2)
      (fun r hr => hps r (List.mem_cons_of_mem p hr)) ?_ q hq
    intro r hr
    rcases mem_pyDictSet m p.1 p.2 r hr with h | h
    · exact hm r h
    · rw [h]; exact hps p (List.mem_cons_self p rest)

/-- Every pair produced by a `finditer` match has a nonnegative score. -/
theorem rankMatchPairs_nonneg (text : String) :
    ∀ p ∈ rankMatchPairs text, 0 ≤ p.2 := by
  intro p hp
  rcases List.mem_map.mp hp with ⟨ch, _, he⟩
  rw [← he]
  exact parseFloatQ_nonneg _

/-! ## Claim theorems: extractors -/

/-- C7: on the literal input
`"1. Memantine: blocks NMDA receptors.\n2. Donepezil: inhibits AChE."`,
`extract_compounds` returns exactly the two records
`{name: "Memantine", mechanism: "blocks NMDA receptors."}` and
`{name: "Donepezil", mechanism: "inhibits AChE."}`, in that order. -/
theorem extract_compounds_literal_example :
    extract_compounds
      "1. Memantine: blocks NMDA receptors.\n2. Donepezil: inhibits AChE." =
    [⟨"Memantine".data, "blocks NMDA receptors.".data⟩,
     ⟨"Donepezil".data, "inhibits AChE.".data⟩] := by
  decide

/-- C8: on `"Rank 1: Curcumin - Score: 8.5/10\nRank 2: Rapamycin - Score: 7/10"`
the score extractor returns exactly the mapping
`{"Curcumin": 8.5, "Rapamycin": 7.0}`; and in general the value recorded
for a name is the score of the last ranking-line match for that name. -/
theorem extract_scores_literal_and_last_wins :
    extract_scores
      "Rank 1: Curcumin - Score: 8.5/10\nRank 2: Rapamycin - Score: 7/10" =
      [("Curcumin".data, 17/2), ("Rapamycin".data, 7)] ∧
    ∀ (text : String) (k : List Char),
      pyDictGet (extract_scores text) k =
        ((rankMatchPairs text).reverse.find? (fun p => p.1 = k)).map (·.2) := by
  constructor
  · have h : extract_scores
        "Rank 1: Curcumin - Score: 8.5/10\nRank 2: Rapamycin - Score: 7/10" =
        [("Curcumin".data, parseFloatQ "8.5".data),
         ("Rapamycin".data, parseFloatQ "7".data)] := rfl
    rw [h,
      show parseFloatQ "8.5".data = 17/2 from by
        show ((8 : ℕ) : ℚ) + ((5 : ℕ) : ℚ) / 10 ^ 1 = 17/2
        norm_num,
      show parseFloatQ "7".data = 7 from by
        show ((7 : ℕ) : ℚ) = 7
        norm_num]
  · intro text k
    unfold extract_scores
    split
    · rename_i htext
      rw [show rankMatchPairs text =
            (finditerAll rankPattern text.data).map rankMatchPair from rfl,
          htext]
      rw [show finditerAll rankPattern [] = [] from by decide]
      rfl
    · rw [pyDictGet_foldl_set]
      cases hfind :
          ((rankMatchPairs text).reverse.find? (fun p => p.1 = k)) <;>
        simp [hfind, pyDictGet]

/-- C3 counterexample: the ranking pattern does not bound the score;
`"Rank 1: Curcumin - Score: 99/10"` yields the score 99, outside [0,10]. -/
theorem extract_scores_score_above_ten :
    ("Curcumin".data, (99 : ℚ)) ∈
      extract_scores "Rank 1: Curcumin - Score: 99/10" ∧
    ¬ ((99 : ℚ) ≤ 10) := by
  refine ⟨?_, by norm_num⟩
  have h : extract_scores "Rank 1: Curcumin - Score: 99/10" =
      [("Curcumin".data, parseFloatQ "99".data)] := rfl
  rw [h, show parseFloatQ "99".data = (99 : ℚ) from by
    show ((99 : ℕ) : ℚ) = 99
    norm_num]
  exact List.mem_singleton_self _

/-- C3 (amended): every score in the mapping returned by the score
extractor is a nonnegative rational; the upper bound 10 is not enforced
by the code. -/
theorem extract_scores_values_nonneg (text : String) (k : List Char) (v : ℚ)
    (h : (k, v) ∈ extract_scores text) : 0 ≤ v := by
  unfold extract_scores at h
  split at h
  · simp at h
  · exact foldl_set_values_nonneg (rankMatchPairs text) []
      (rankMatchPairs_nonneg text) (by simp) (k, v) h

/-- Witness for `extract_scores_values_nonneg` at a concrete input. -/
theorem extract_scores_values_nonneg_witness :
    0 ≤ parseFloatQ "99".data :=
  extract_scores_values_nonneg "Rank 1: Curcumin - Score: 99/10"
    "Curcumin".data (parseFloatQ "99".data)
    (by
      rw [show extract_scores "Rank 1: Curcumin - Score: 99/10" =
        [("Curcumin".data, parseFloatQ "99".data)] from rfl]
      exact List.mem_singleton_self _)

/-! ## Mock-response facts -/

/-- The family key resolved by `_generate_mock_response` is always one of
the two `_mock_data` keys. -/
theorem resolve_default_aux (b : String) :
    (if mockDataKeys.contains b then b else "meditron") = "meditron" ∨
    (if mockDataKeys.contains b then b else "meditron") = "biomistral" := by
  by_cases h : mockDataKeys.contains b
  · rw [if_pos h]
    simpa [mockDataKeys] using h
  · rw [if_neg h]; left; rfl

theorem resolveBaseModel_cases (m : String) :
    resolveBaseModel m = "meditron" ∨ resolveBaseModel m = "biomistral" :=
  resolve_default_aux _

/-- Every mock template is a non-empty string (for the two families that
can be resolved). -/
theorem mockData_ne_empty (f c : String)
    (hf : f = "meditron" ∨ f = "biomistral") : mockData f c ≠ "" := by
  rcases hf with hf | hf <;> subst hf <;> unfold mockData <;> split_ifs <;>
    decide

/-- `_generate_mock_response` always returns a non-empty string. -/
theorem generateMockResponse_ne_empty (p m : String) :
    generateMockResponse p m ≠ "" :=
  mockData_ne_empty _ _ (resolveBaseModel_cases m)

/-- C9: the shipped biomistral identifier normalizes to the lowercased
text before the first `/`, namely `"adrienbrault"`; that key is not in
the mock data, so the family defaults to `"meditron"`, and for every
prompt the mock/fallback response equals the one for model
`"meditron"` — it is never drawn from the biomistral family. -/
theorem mock_family_biomistral_default :
    pyLower (if ("adrienbrault/biomistral-7b:Q2_K" : String).data.contains '/'
        then (⟨("adrienbrault/biomistral-7b:Q2_K" : String).data.takeWhile
          (· ≠ '/')⟩ : String)
        else "adrienbrault/biomistral-7b:Q2_K") = "adrienbrault" ∧
    mockDataKeys.contains "adrienbrault" = false ∧
    resolveBaseModel "adrienbrault/biomistral-7b:Q2_K" = "meditron" ∧
    ∀ prompt, generateMockResponse prompt "adrienbrault/biomistral-7b:Q2_K" =
      generateMockResponse prompt "meditron" := by
  refine ⟨by decide, by decide, by decide, ?_⟩
  intro p
  unfold generateMockResponse
  rw [show resolveBaseModel "adrienbrault/biomistral-7b:Q2_K" = "meditron"
        from by decide,
      show resolveBaseModel "meditron" = "meditron" from by decide]

/-! ## Claim theorems: the query client -/

/-- One failed attempt moves the retry loop to the next attempt. -/
theorem queryAttempts_failed_step (p m : String) (uc : Bool)
    (c : List (String × String)) (env : Nat → NetOutcome) (i n : Nat)
    (hi : ∀ r, env i ≠ .ok r) :
    queryAttempts p m uc c env i (n + 1) =
      queryAttempts p m uc c env (i + 1) n := by
  cases h : env i with
  | ok r => exact absurd h (hi r)
  | exn => simp [queryAttempts, h]
  | httpError code => simp [queryAttempts, h]
  | badJson => simp [queryAttempts, h]

/-- C1: with mock mode off and a cache miss, if every network attempt
fails then `query` returns exactly the deterministic mock fallback — and
that fallback is a non-empty string.  (`query` is total by construction:
every outcome, including total network failure, yields a string.) -/
theorem query_total_mock_fallback (p m : String) (uc : Bool)
    (c : List (String × String)) (env : Nat → NetOutcome)
    (hmiss : pyDictGet c (cacheKey p m) = none)
    (hfail : ∀ i, i < 3 → ∀ r, env i ≠ .ok r) :
    query ⟨false, uc, c⟩ p m env 3 = ⟨generateMockResponse p m, c, 3⟩ ∧
    generateMockResponse p m ≠ "" := by
  refine ⟨?_, generateMockResponse_ne_empty p m⟩
  have hrun : queryAttempts p m uc c env 0 3 =
      ⟨generateMockResponse p m, c, 3⟩ := by
    rw [queryAttempts_failed_step p m uc c env 0 2 (hfail 0 (by omega)),
        queryAttempts_failed_step p m uc c env 1 1 (hfail 1 (by omega)),
        queryAttempts_failed_step p m uc c env 2 0 (hfail 2 (by omega))]
    rfl
  cases uc with
  | false => simpa [query] using hrun
  | true =>
    unfold query
    simp only [Bool.false_eq_true, if_false, if_true]
    rw [hmiss]
    exact hrun

/-- Witness for `query_total_mock_fallback` at a concrete input. -/
theorem query_total_mock_fallback_witness :
    query ⟨false, true, []⟩ "q" "meditron" (fun _ => .exn) 3 =
      ⟨generateMockResponse "q" "meditron", [], 3⟩ ∧
    generateMockResponse "q" "meditron" ≠ "" :=
  query_total_mock_fallback "q" "meditron" true [] (fun _ => .exn) rfl
    (fun _ _ _r h => NetOutcome.noConfusion h)

/-- C2 counterexample: a 200 response whose body parses as JSON but lacks
the `response` field is *accepted* on the first attempt — `query` returns
the defaulted empty string after one network call and writes it to the
cache — rather than being treated as a failed attempt and retried. -/
theorem query_accepts_missing_response_field :
    query ⟨false, true, []⟩ "p" "m" (fun _ => .ok none) 3 =
      ⟨"", [(cacheKey "p" "m", "")], 1⟩ := rfl

/-- C2 (amended): during the retry loop a response is accepted (returned
and cached) exactly when it has success status and its body parses as
JSON; the `response` field is not required — `result.get('response', '')`
defaults a missing field to the empty string.  Any other outcome is
retried: here the first attempt fails, and the second attempt's parsed
body is accepted whether or not it carries the field. -/
theorem query_accepts_any_parsed_200 (p m : String) (env : Nat → NetOutcome)
    (r : Option String)
    (h0 : env 0 = .exn ∨ (∃ code, env 0 = .httpError code) ∨ env 0 = .badJson)
    (h1 : env 1 = .ok r) :
    query ⟨false, true, []⟩ p m env 3 =
      ⟨r.getD "", pyDictSet [] (cacheKey p m) (r.getD ""), 2⟩ := by
  have hstep : queryAttempts p m true [] env 0 3 =
      queryAttempts p m true [] env 1 2 := by
    refine queryAttempts_failed_step p m true [] env 0 2 ?_
    intro s hs
    rcases h0 with h | ⟨code, h⟩ | h <;> rw [h] at hs <;> cases hs
  have haccept : queryAttempts p m true [] env 1 2 =
      ⟨r.getD "", pyDictSet [] (cacheKey p m) (r.getD ""), 2⟩ := by
    simp [queryAttempts, h1]
  show queryAttempts p m true [] env 0 3 = _
  rw [hstep, haccept]

/-- Witness for `query_accepts_any_parsed_200` at a concrete input. -/
theorem query_accepts_any_parsed_200_witness :
    query ⟨false, true, []⟩ "p" "m"
        (fun n => if n == 0 then .badJson else .ok none) 3 =
      ⟨"", pyDictSet [] (cacheKey "p" "m") "", 2⟩ :=
  query_accepts_any_parsed_200 "p" "m"
    (fun n => if n == 0 then .badJson else .ok none) none
    (Or.inr (Or.inr rfl)) rfl

/-- The retry loop returns at the first attempt whose outcome is a parsed
200 body, with the text defaulted from the `response` field, cached when
caching is on, after `i + 1` network calls. -/
theorem queryAttempts_first_ok (p m : String) (uc : Bool)
    (c : List (String × String)) (env : Nat → NetOutcome)
    (r : Option String) :
    ∀ (i calls n : Nat), i < n →
    (∀ j, j < i → ∀ s, env (calls + j) ≠ .ok s) →
    env (calls + i) = .ok r →
    queryAttempts p m uc c env calls n =
      ⟨r.getD "",
       if uc then pyDictSet c (cacheKey p m) (r.getD "") else c,
       calls + i + 1⟩ := by
  intro i
  induction i with
  | zero =>
    intro calls n hn hfirst hok
    match n, hn with
    | n + 1, _ =>
      have h : env calls = .ok r := by simpa using hok
      simp [queryAttempts, h]
  | succ i ih =>
    intro calls n hn hfirst hok
    match n, hn with
    | n + 1, hn =>
      have h0 : ∀ s, env calls ≠ .ok s := by
        intro s
        have := hfirst 0 (by omega) s
        simpa using this
      rw [queryAttempts_failed_step p m uc c env calls n h0]
      have hfirst' : ∀ j, j < i → ∀ s, env (calls + 1 + j) ≠ .ok s := by
        intro j hj s
        have := hfirst (j + 1) (by omega) s
        rwa [show calls + (j + 1) = calls + 1 + j from by omega] at this
      have hok' : env (calls + 1 + i) = .ok r := by
        rwa [show calls + 1 + i = calls + (i + 1) from by omega]
      rw [ih (calls + 1) n (by omega) hfirst' hok']
      congr 1
      omega

/-- C6: with caching on, mock off and a cache miss, a first call whose
`i`-th attempt is the first parsed 200 returns its text after `i + 1`
network requests and writes it to the cache under the key of `(p, m)`;
a second call with the resulting cache returns the identical text with
zero network requests, served purely from the cache. -/
theorem query_cache_idempotent (p m : String) (c0 : List (String × String))
    (env env2 : Nat → NetOutcome) (i : Nat) (r : Option String)
    (hmiss : pyDictGet c0 (cacheKey p m) = none) (hi : i < 3)
    (hfirst : ∀ j, j < i → ∀ s, env j ≠ .ok s) (hok : env i = .ok r) :
    query ⟨false, true, c0⟩ p m env 3 =
      ⟨r.getD "", pyDictSet c0 (cacheKey p m) (r.getD ""), i + 1⟩ ∧
    query ⟨false, true, pyDictSet c0 (cacheKey p m) (r.getD "")⟩ p m env2 3 =
      ⟨r.getD "", pyDictSet c0 (cacheKey p m) (r.getD ""), 0⟩ := by
  constructor
  · have hrun := queryAttempts_first_ok p m true c0 env r i 0 3 hi
      (fun j hj s => by rw [Nat.zero_add]; exact hfirst j hj s)
      (by rw [Nat.zero_add]; exact hok)
    rw [show (0 : Nat) + i + 1 = i + 1 from by omega] at hrun
    show (match pyDictGet c0 (cacheKey p m) with
      | some t => (⟨t, c0, 0⟩ : QueryResult)
      | none => queryAttempts p m true c0 env 0 3) = _
    rw [hmiss]
    simpa using hrun
  · show (match pyDictGet (pyDictSet c0 (cacheKey p m) (r.getD ""))
        (cacheKey p m) with
      | some t => (⟨t, pyDictSet c0 (cacheKey p m) (r.getD ""), 0⟩ : QueryResult)
      | none => queryAttempts p m true (pyDictSet c0 (cacheKey p m) (r.getD ""))
          env2 0 3) = _
    rw [pyDictGet_pyDictSet, if_pos rfl]

/-- Witness for `query_cache_idempotent` at a concrete input. -/
theorem query_cache_idempotent_witness :
    query ⟨false, true, []⟩ "p" "m" (fun _ => .ok (some "hello")) 3 =
      ⟨"hello", pyDictSet [] (cacheKey "p" "m") "hello", 1⟩ ∧
    query ⟨false, true, pyDictSet [] (cacheKey "p" "m") "hello"⟩ "p" "m"
        (fun _ => .exn) 3 =
      ⟨"hello", pyDictSet [] (cacheKey "p" "m") "hello", 0⟩ :=
  query_cache_idempotent "p" "m" [] (fun _ => .ok (some "hello"))
    (fun _ => .exn) 0 (some "hello") rfl (by omega)
    (fun j hj s h => absurd hj (by omega)) rfl

/-- C10: the cache key is the MD5 hex digest of the bare concatenation
`prompt + model`, so any two pairs with equal concatenation share a key;
with caching enabled, a response cached under one such pair is returned
(with no network request) by a later query for the other pair. -/
theorem cacheKey_concatenation_collision (p1 m1 p2 m2 : String)
    (h : p1 ++ m1 = p2 ++ m2) :
    (∀ p m, cacheKey p m = md5Hex (p ++ m)) ∧
    cacheKey p1 m1 = cacheKey p2 m2 ∧
    ∀ (c : List (String × String)) (t : String) (env : Nat → NetOutcome),
      pyDictGet c (cacheKey p1 m1) = some t →
      query ⟨false, true, c⟩ p2 m2 env 3 = ⟨t, c, 0⟩ := by
  have hkey : cacheKey p1 m1 = cacheKey p2 m2 := by
    unfold cacheKey; rw [h]
  refine ⟨fun _ _ => rfl, hkey, ?_⟩
  intro c t env hget
  show (match pyDictGet c (cacheKey p2 m2) with
    | some t => (⟨t, c, 0⟩ : QueryResult)
    | none => queryAttempts p2 m2 true c env 0 3) = _
  rw [← hkey, hget]

/-- Witness for `cacheKey_concatenation_collision` at a concrete input. -/
theorem cacheKey_concatenation_collision_witness :
    cacheKey "ab" "c" = cacheKey "a" "bc" ∧
    query ⟨false, true, [(cacheKey "ab" "c", "t")]⟩ "a" "bc"
        (fun _ => .exn) 3 =
      ⟨"t", [(cacheKey "ab" "c", "t")], 0⟩ := by
  have h := cacheKey_concatenation_collision "ab" "c" "a" "bc" (by decide)
  exact ⟨h.2.1, h.2.2 [(cacheKey "ab" "c", "t")] "t" (fun _ => .exn)
    (by simp [pyDictGet])⟩

/-! ## Claim theorems: combination-therapy model alternation -/

/-- Alternation by submission index: pair `k` gets `med` when `k` is
even, `bio` when odd. -/
def altAssign (med bio : String) :
    Nat → List (String × String) → List ((String × String) × String)
  | _, [] => []
  | k, pr :: rest =>
    (pr, if k % 2 == 0 then med else bio) :: altAssign med bio (k + 1) rest

/-- `enumFrom`-indexed mapping gives the submission-index alternation. -/
theorem enumFrom_map_altAssign (med bio : String)
    (pairs : List (String × String)) :
    ∀ k, (List.enumFrom k pairs).map
      (fun p => (p.2, if p.1 % 2 == 0 then med else bio)) =
      altAssign med bio k pairs := by
  induction pairs with
  | nil => intro k; rfl
  | cons pr rest ih => intro k; simp only [List.enumFrom, List.map_cons,
      altAssign, ih (k + 1)]

/-- The executor branch assigns models by submission index. -/
theorem executorAssignments_eq_altAssign (med bio : String)
    (pairs : List (String × String)) :
    executorAssignments med bio pairs = altAssign med bio 0 pairs :=
  enumFrom_map_altAssign med bio pairs 0

/-- Inserting a fresh key grows the dict by exactly one entry. -/
theorem pyDictSet_length_fresh [DecidableEq κ] (m : List (κ × α)) (k : κ)
    (v : α) (h : ¬ m.any (fun q => q.1 = k)) :
    (pyDictSet m k v).length = m.length + 1 := by
  unfold pyDictSet
  rw [if_neg h, List.length_append, List.length_singleton]

/-- Inserting under key `k` introduces no entry under a different key. -/
theorem pyDictSet_any_other [DecidableEq κ] (m : List (κ × α)) (k : κ)
    (v : α) (k' : κ) (h1 : ¬ m.any (fun q => q.1 = k')) (h2 : k' ≠ k) :
    ¬ (pyDictSet m k v).any (fun q => q.1 = k') := by
  unfold pyDictSet
  split
  · intro hc
    rcases List.any_eq_true.mp hc with ⟨q, hq, hq'⟩
    rcases List.mem_map.mp hq with ⟨p, hp, he⟩
    simp only [decide_eq_true_eq] at hq'
    by_cases hpk : p.1 = k
    · rw [if_pos hpk] at he
      rw [← he] at hq'
      exact h2 hq'.symm
    · rw [if_neg hpk] at he
      exact h1 (List.any_eq_true.mpr ⟨p, hp, by simp [he ▸ hq']⟩)
  · intro hc
    rcases List.any_eq_true.mp hc with ⟨q, hq, hq'⟩
    simp only [decide_eq_true_eq] at hq'
    rcases List.mem_append.mp hq with h | h
    · exact h1 (List.any_eq_true.mpr ⟨q, h, by simp [hq']⟩)
    · rw [List.mem_singleton.mp h] at hq'
      exact h2 hq'.symm

/-- When every query result is non-empty and the pair keys are distinct,
the sequential (`rich`) loop's stored-count parity coincides with the
submission-index parity. -/
theorem richCombLoop_asg_all_nonempty
    (qres : String × String → String → String) (med bio : String) :
    ∀ (pairs : List (String × String)) (th : List (String × String))
      (asg : List ((String × String) × String)),
    (∀ pr mo, qres pr mo ≠ "") →
    (∀ pr ∈ pairs, ¬ th.any (fun q => q.1 = pairKey pr)) →
    (pairs.map pairKey).Nodup →
    (richCombLoop qres med bio pairs th asg).2 =
      asg ++ altAssign med bio th.length pairs := by
  intro pairs
  induction pairs with
  | nil => intro th asg _ _ _; simp [richCombLoop, altAssign]
  | cons pr rest ih =>
    intro th asg hq hfresh hnodup
    show (richCombLoop qres med bio rest
        (if qres pr (if th.length % 2 == 0 then med else bio) ≠ ""
         then pyDictSet th (pairKey pr)
           (qres pr (if th.length % 2 == 0 then med else bio))
         else th)
        (asg ++ [(pr, if th.length % 2 == 0 then med else bio)])).2 = _
    rw [if_pos (hq pr _)]
    have hfreshpr : ¬ th.any (fun q => q.1 = pairKey pr) :=
      hfresh pr (List.mem_cons_self pr rest)
    have hfresh' : ∀ pr' ∈ rest,
        ¬ (pyDictSet th (pairKey pr)
            (qres pr (if th.length % 2 == 0 then med else bio))).any
          (fun q => q.1 = pairKey pr') := by
      intro pr' hpr'
      refine pyDictSet_any_other th (pairKey pr) _ (pairKey pr')
        (hfresh pr' (List.mem_cons_of_mem pr hpr')) ?_
      have hnd : pairKey pr ∉ rest.map pairKey ∧ (rest.map pairKey).Nodup := by
        rw [List.map_cons] at hnodup
        exact List.nodup_cons.mp hnodup
      exact fun he => hnd.1 (he ▸ List.mem_map_of_mem pairKey hpr')
    have hnd : pairKey pr ∉ rest.map pairKey ∧ (rest.map pairKey).Nodup := by
      rw [List.map_cons] at hnodup
      exact List.nodup_cons.mp hnodup
    rw [ih _ _ hq hfresh' hnd.2]
    rw [pyDictSet_length_fresh th _ _ hfreshpr]
    simp [altAssign]

/-- C4 counterexample: in the sequential (`rich`) branch the model is
chosen by the parity of the number of *stored* results, not the
submission index.  With three compounds and the first pair's query result
empty, the second pair (submission index 1, which the claim says must use
the biomistral model) is queried with the meditron model. -/
theorem combination_model_not_submission_index :
    (simulateCombinationRich
        (fun pr _ => if pr = ("A", "B") then "" else "X")
        "meditron-model" "biomistral-model"
        [⟨"A".data, []⟩, ⟨"B".data, []⟩, ⟨"C".data, []⟩] 3).2.2 =
      [(("A", "B"), "meditron-model"), (("A", "C"), "meditron-model"),
       (("B", "C"), "biomistral-model")] ∧
    "meditron-model" ≠ "biomistral-model" := by
  constructor
  · rfl
  · decide

/-- C4 (amended): the executor branch fixes the model by submission-index
parity; the sequential (`rich`) branch (and pipeline.py's loop) fixes it
by the parity of the number of stored results, which coincides with the
submission index exactly when every earlier pair produced a non-empty
result (given distinct pair keys). -/
theorem combination_model_assignment (med bio : String)
    (qres : String × String → String → String)
    (pairs : List (String × String))
    (hq : ∀ pr mo, qres pr mo ≠ "")
    (hnodup : (pairs.map pairKey).Nodup) :
    executorAssignments med bio pairs = altAssign med bio 0 pairs ∧
    (richCombLoop qres med bio pairs [] []).2 = altAssign med bio 0 pairs := by
  refine ⟨executorAssignments_eq_altAssign med bio pairs, ?_⟩
  simpa using
    richCombLoop_asg_all_nonempty qres med bio pairs [] [] hq
      (by intro pr _; simp [List.any_nil]) hnodup

/-- Witness for `combination_model_assignment` at a concrete input. -/
theorem combination_model_assignment_witness :
    executorAssignments "m1" "m2" [("A", "B"), ("A", "C"), ("B", "C")] =
      altAssign "m1" "m2" 0 [("A", "B"), ("A", "C"), ("B", "C")] ∧
    (richCombLoop (fun _ _ => "X") "m1" "m2"
        [("A", "B"), ("A", "C"), ("B", "C")] [] []).2 =
      altAssign "m1" "m2" 0 [("A", "B"), ("A", "C"), ("B", "C")] :=
  combination_model_assignment "m1" "m2" (fun _ _ => "X")
    [("A", "B"), ("A", "C"), ("B", "C")]
    (fun _ _ => show ("X" : String) ≠ "" by decide) (by decide)

/-! ## Claim theorems: the pipeline driver -/

/-- C5: the driver's two-tier failure policy.  Critical stages (data
load, compound identification, interaction simulation, report generation)
abort the run with a failure signal before any later stage is invoked —
in particular a compound-identification failure aborts without attempting
interaction simulation.  When all four critical stages succeed the run
completes and reaches report generation whatever the recoverable stages
(differential expression, pathway analysis, ranking, combination therapy,
literature validation) return, with the driver substituting the synthetic
gene lists and the fixed five-pathway placeholder on recoverable
failures. -/
theorem pipeline_two_tier_policy (ok : Stage → Bool)
    (up down path : List String) :
    (ok .loadData = false →
      (runPipeline ok up down path).succeeded = false ∧
      (runPipeline ok up down path).attempted = [Stage.loadData]) ∧
    (ok .loadData = true → ok .identifyCompounds = false →
      (runPipeline ok up down path).succeeded = false ∧
      Stage.interactions ∉ (runPipeline ok up down path).attempted) ∧
    (ok .loadData = true → ok .identifyCompounds = true →
      ok .interactions = false →
      (runPipeline ok up down path).succeeded = false ∧
      Stage.report ∉ (runPipeline ok up down path).attempted) ∧
    (ok .loadData = true → ok .identifyCompounds = true →
      ok .interactions = true → ok .report = false →
      (runPipeline ok up down path).succeeded = false ∧
      (runPipeline ok up down path).attempted = allStages) ∧
    (ok .loadData = true → ok .identifyCompounds = true →
      ok .interactions = true → ok .report = true →
      (runPipeline ok up down path).succeeded = true ∧
      (runPipeline ok up down path).attempted = allStages ∧
      (ok .pathway = false →
        (runPipeline ok up down path).topPathways = pathwayPlaceholder) ∧
      (ok .diffExpr = false →
        (runPipeline ok up down path).upGenes = upGenePlaceholder ∧
        (runPipeline ok up down path).downGenes = downGenePlaceholder)) := by
  refine ⟨?_, ?_, ?_, ?_, ?_⟩
  · intro h1
    simp [runPipeline, h1]
  · intro h1 h2
    simp [runPipeline, h1, h2, allStages]
  · intro h1 h2 h3
    simp [runPipeline, h1, h2, h3, allStages]
  · intro h1 h2 h3 h4
    simp [runPipeline, h1, h2, h3, h4, allStages]
  · intro h1 h2 h3 h4
    refine ⟨?_, ?_, ?_, ?_⟩
    · simp [runPipeline, h1, h2, h3, h4]
    · simp [runPipeline, h1, h2, h3, h4, allStages]
    · intro h5
      simp [runPipeline, h1, h2, h3, h4, h5]
    · intro h5
      simp [runPipeline, h1, h2, h3, h4, h5]

/-- Witness for `pipeline_two_tier_policy` at concrete success oracles:
a compound-identification failure aborts without attempting interaction
simulation, while a pathway-analysis failure still reaches report
generation with the placeholder pathway list. -/
theorem pipeline_two_tier_policy_witness :
    ((runPipeline (fun s => !(s == Stage.identifyCompounds)) [] [] []).succeeded
        = false ∧
      Stage.interactions ∉
        (runPipeline (fun s => !(s == Stage.identifyCompounds)) [] [] []).attempted) ∧
    ((runPipeline (fun s => !(s == Stage.pathway)) [] [] []).succeeded = true ∧
      (runPipeline (fun s => !(s == Stage.pathway)) [] [] []).attempted
        = allStages ∧
      (runPipeline (fun s => !(s == Stage.pathway)) [] [] []).topPathways
        = pathwayPlaceholder) := by
  constructor
  · exact (pipeline_two_tier_policy
      (fun s => !(s == Stage.identifyCompounds)) [] [] []).2.1 rfl rfl
  · have h := (pipeline_two_tier_policy
      (fun s => !(s == Stage.pathway)) [] [] []).2.2.2.2 rfl rfl rfl rfl
    exact ⟨h.1, h.2.1, h.2.2.1 rfl⟩

end AlzDiscovery
